import Mathlib

/-!
Shallow embedding of the Running health-tracking dashboard
(`website.py` and `body_calculation.py`).

Python floats are modelled as exact rationals (`ℚ`), Python ints as `ℤ`
or `ℕ`.  `int(x)` on a float truncates toward zero (`pyTrunc`), Python's
`round` rounds half to even (`pyRound`), `x // y` on floats is
`⌊x / y⌋` and `x % y` is `x - y * ⌊x / y⌋`.  The flat CSV files backing
the three record stores are modelled as `Option (List record)`: `none`
when the file does not exist, `some rows` (rows in file order) when it
does.  Dates are modelled structurally (`HDate`), since the code parses
the stored `DD/MM/YYYY` strings back into calendar dates before any
grouping or filtering.
-/

namespace Running

/-- Python `int(x)` on a float: truncation toward zero. -/
def pyTrunc (q : ℚ) : ℤ :=
  if 0 ≤ q then ⌊q⌋ else -⌊-q⌋

/-- Python `round(x)` (banker's rounding: round half to even). -/
def pyRound (q : ℚ) : ℤ :=
  if q - ⌊q⌋ < 1/2 then ⌊q⌋
  else if 1/2 < q - ⌊q⌋ then ⌊q⌋ + 1
  else if ⌊q⌋ % 2 = 0 then ⌊q⌋ else ⌊q⌋ + 1

/-- Python `round(x, 2)`: rounding to two decimal places. -/
def round2 (q : ℚ) : ℚ :=
  (pyRound (q * 100) : ℚ) / 100

/-- Python's `f"{n:02d}"`: decimal rendering zero-padded to width 2. -/
def pad2 (n : ℤ) : String :=
  if 0 ≤ n ∧ n < 10 then "0" ++ toString n else toString n

/-- Python `x // y` on floats (floor division). -/
def pyFloorDiv (a b : ℚ) : ℚ :=
  (⌊a / b⌋ : ℤ)

/-- Python `x % y` on floats: `x - y * (x // y)`. -/
def pyMod (a b : ℚ) : ℚ :=
  a - b * pyFloorDiv a b

/-! ### Evaluation lemmas for the Python primitives -/

theorem floor_eval {q : ℚ} {z : ℤ} (h1 : (z : ℚ) ≤ q) (h2 : q < z + 1) :
    ⌊q⌋ = z :=
  Int.floor_eq_iff.mpr ⟨h1, h2⟩

theorem pyTrunc_eval {q : ℚ} {z : ℤ} (h0 : 0 ≤ q) (h1 : (z : ℚ) ≤ q)
    (h2 : q < z + 1) : pyTrunc q = z := by
  rw [pyTrunc, if_pos h0]
  exact floor_eval h1 h2

theorem pyTrunc_intCast (z : ℤ) : pyTrunc (z : ℚ) = z := by
  rw [pyTrunc]
  split
  · exact Int.floor_intCast z
  · rw [← Int.cast_neg, Int.floor_intCast]
    ring

/-- Value of `pyRound` when the fractional part is below one half. -/
theorem pyRound_eval_lo {q : ℚ} {z : ℤ} (h1 : (z : ℚ) ≤ q)
    (h2 : q < z + 1/2) : pyRound q = z := by
  have hf : ⌊q⌋ = z := floor_eval h1 (by linarith)
  rw [pyRound, hf, if_pos (by linarith)]

/-- Value of `pyRound` when the fractional part is above one half. -/
theorem pyRound_eval_hi {q : ℚ} {z : ℤ} (h1 : (z : ℚ) + 1/2 < q)
    (h2 : q < z + 1) : pyRound q = z + 1 := by
  have hf : ⌊q⌋ = z := floor_eval (by linarith) h2
  rw [pyRound, hf, if_neg (by linarith), if_pos (by linarith)]

/-- The rounding error of `pyRound` is at most one half. -/
theorem abs_pyRound_sub_le (q : ℚ) : |(pyRound q : ℚ) - q| ≤ 1/2 := by
  have hle : ((⌊q⌋ : ℤ) : ℚ) ≤ q := Int.floor_le q
  have hlt : q < (⌊q⌋ : ℤ) + 1 := Int.lt_floor_add_one q
  rw [pyRound]
  split
  · rw [abs_le]; constructor <;> linarith
  · split
    · rw [abs_le]; constructor <;> push_cast <;> linarith
    · have heq : q - (⌊q⌋ : ℚ) = 1/2 := by linarith
      split <;> (rw [abs_le]; constructor <;> push_cast <;> linarith)

/-- The rounding error of `round2` is at most `1/200`. -/
theorem abs_round2_sub_le (q : ℚ) : |round2 q - q| ≤ 1/200 := by
  have h := abs_pyRound_sub_le (q * 100)
  rw [round2]
  have h2 : (pyRound (q * 100) : ℚ) / 100 - q =
      ((pyRound (q * 100) : ℚ) - q * 100) / 100 := by ring
  rw [h2, abs_div, abs_of_pos (show (0:ℚ) < 100 by norm_num)]
  linarith

/-! ### website.py: pace, speed and time helpers -/

/-- Function `to_minutes` (website.py line 22): total minutes from h/m/s. -/
def to_minutes (h m s : ℚ) : ℚ :=
  h * 60 + m + s / 60

/-- Function `format_pace` (website.py lines 35-38): `m = int(p)`,
`s = int(round((p - m) * 60))`, rendered as `f"{m}:{s:02d}"`. -/
def format_pace (p : ℚ) : String :=
  toString (pyTrunc p) ++ ":" ++ pad2 (pyRound ((p - (pyTrunc p : ℚ)) * 60))

/-- Function `pace_to_speed` (website.py lines 43-44). -/
def pace_to_speed (pace_min_per_km : ℚ) : ℚ :=
  60 / pace_min_per_km

/-- Function `speed_to_pace` (website.py lines 46-47). -/
def speed_to_pace (speed_kmh : ℚ) : ℚ :=
  60 / speed_kmh

/-- The four fixed distances of the finish-time table
(website.py lines 50-55), label and kilometres. -/
def table_distances : List (String × ℚ) :=
  [("5 km", 5), ("10 km", 10),
   ("Half Marathon (21.1 km)", 21.097), ("Full Marathon (42.2 km)", 42.195)]

/-- One row-time of the finish-time table (website.py lines 59-67):
`hours = int(total // 60)`, `minutes = int(total % 60)`,
`seconds = int((total - hours*60 - minutes) * 60)` — note the bare
`int(...)` truncation for the seconds — formatted `HH:MM:SS` when
`hours > 0`, else `MM:SS`, every component zero-padded to two digits. -/
def row_time (total_minutes : ℚ) : String :=
  let hours : ℤ := pyTrunc (pyFloorDiv total_minutes 60)
  let minutes : ℤ := pyTrunc (pyMod total_minutes 60)
  let seconds : ℤ :=
    pyTrunc ((total_minutes - (hours : ℚ) * 60 - (minutes : ℚ)) * 60)
  if 0 < hours then pad2 hours ++ ":" ++ pad2 minutes ++ ":" ++ pad2 seconds
  else pad2 minutes ++ ":" ++ pad2 seconds

/-- Function `time_table_from_pace` (website.py lines 49-74): for each fixed
distance, the row `(label, row_time (pace * km))`. -/
def time_table_from_pace (pace_min_per_km : ℚ) : List (String × String) :=
  table_distances.map fun nk => (nk.1, row_time (pace_min_per_km * nk.2))

/-- Modelled from the spec's words for comparison with
`time_table_from_pace`: identical except that the seconds component is
*rounded to nearest* (`seconds = round((total_minutes − whole_minutes) ×
60)`) instead of truncated. -/
def row_time_spec_rounded (total_minutes : ℚ) : String :=
  let hours : ℤ := pyTrunc (pyFloorDiv total_minutes 60)
  let minutes : ℤ := pyTrunc (pyMod total_minutes 60)
  let seconds : ℤ :=
    pyRound ((total_minutes - (hours : ℚ) * 60 - (minutes : ℚ)) * 60)
  if 0 < hours then pad2 hours ++ ":" ++ pad2 minutes ++ ":" ++ pad2 seconds
  else pad2 minutes ++ ":" ++ pad2 seconds

/-- Spec-worded variant of the whole table, seconds rounded. -/
def time_table_spec_rounded (pace_min_per_km : ℚ) : List (String × String) :=
  table_distances.map fun nk =>
    (nk.1, row_time_spec_rounded (pace_min_per_km * nk.2))

/-! ### Evaluation lemmas for `format_pace` and `row_time` -/

theorem format_pace_eq {p : ℚ} {m s : ℤ} (hm : pyTrunc p = m)
    (hs : pyRound ((p - (m : ℚ)) * 60) = s) :
    format_pace p = toString m ++ ":" ++ pad2 s := by
  rw [format_pace, hm, hs]

theorem row_time_eq {t : ℚ} {H M S : ℤ}
    (hH : pyTrunc (pyFloorDiv t 60) = H) (hM : pyTrunc (pyMod t 60) = M)
    (hS : pyTrunc ((t - (H : ℚ) * 60 - (M : ℚ)) * 60) = S) :
    row_time t = if 0 < H then pad2 H ++ ":" ++ pad2 M ++ ":" ++ pad2 S
      else pad2 M ++ ":" ++ pad2 S := by
  rw [row_time]
  simp only [hH, hM, hS]

theorem row_time_spec_eq {t : ℚ} {H M S : ℤ}
    (hH : pyTrunc (pyFloorDiv t 60) = H) (hM : pyTrunc (pyMod t 60) = M)
    (hS : pyRound ((t - (H : ℚ) * 60 - (M : ℚ)) * 60) = S) :
    row_time_spec_rounded t =
      if 0 < H then pad2 H ++ ":" ++ pad2 M ++ ":" ++ pad2 S
      else pad2 M ++ ":" ++ pad2 S := by
  rw [row_time_spec_rounded]
  simp only [hH, hM, hS]

theorem pyFloorDiv_eval {a b : ℚ} {z : ℤ} (h : ⌊a / b⌋ = z) :
    pyFloorDiv a b = (z : ℚ) := by
  rw [pyFloorDiv, h]

theorem hours_eval {t : ℚ} {H : ℤ} (h1 : (H : ℚ) ≤ t / 60)
    (h2 : t / 60 < H + 1) : pyTrunc (pyFloorDiv t 60) = H := by
  rw [pyFloorDiv_eval (floor_eval h1 h2), pyTrunc_intCast]

theorem minutes_eval {t : ℚ} {F M : ℤ} (hf : ⌊t / 60⌋ = F)
    (h1 : (M : ℚ) ≤ t - 60 * F) (h2 : t - 60 * F < M + 1) (h3 : 0 ≤ (M : ℚ)) :
    pyTrunc (pyMod t 60) = M := by
  rw [pyMod, pyFloorDiv_eval hf]
  exact pyTrunc_eval (by linarith) h1 h2

/-! ### Claim C1 -/

/-- Claim C1: the spec asks that `format_pace` carry rounded seconds into
the minutes, so that `format_pace 5.999 = "6:00"` and never `"5:60"`.
The code does not carry: `format_pace 6 = "6:00"` holds, but
`format_pace 5.999` evaluates to `"5:60"`, the very display the spec
calls a bug to be fixed. -/
theorem C1_format_pace_no_carry :
    format_pace 6 = "6:00" ∧ format_pace (5999/1000) = "5:60" ∧
    format_pace (5999/1000) ≠ "6:00" := by
  have h6 : format_pace 6 = "6:00" := by
    rw [format_pace_eq (m := 6) (s := 0)
      (pyTrunc_eval (by norm_num) (by norm_num) (by norm_num))
      (pyRound_eval_lo (by norm_num) (by norm_num))]
    decide
  have h5 : format_pace (5999/1000) = "5:60" := by
    rw [format_pace_eq (m := 5) (s := 60)
      (pyTrunc_eval (by norm_num) (by norm_num) (by norm_num))
      (pyRound_eval_hi (z := 59) (by norm_num) (by norm_num))]
    decide
  refine ⟨h6, h5, ?_⟩
  rw [h5]
  decide

/-! ### Claim C2 -/

/-- Claim C2 counterexample: the finish-time table truncates the seconds
component, it does not round it.  At pace `1.013` min/km the 5 km row is
`"05:03"` (truncating `3.9` s), while the spec's rounding formula gives
`"05:04"`; so `time_table_from_pace` disagrees with the table built
exactly as the claim words it. -/
theorem C2_seconds_truncated_not_rounded :
    (time_table_from_pace (1013/1000)).head? = some ("5 km", "05:03") ∧
    (time_table_spec_rounded (1013/1000)).head? = some ("5 km", "05:04") ∧
    time_table_from_pace (1013/1000) ≠ time_table_spec_rounded (1013/1000) := by
  have hf : ⌊((1013/1000 : ℚ) * 5) / 60⌋ = 0 := floor_eval (by norm_num) (by norm_num)
  have hH : pyTrunc (pyFloorDiv ((1013/1000 : ℚ) * 5) 60) = 0 :=
    hours_eval (by norm_num) (by norm_num)
  have hM : pyTrunc (pyMod ((1013/1000 : ℚ) * 5) 60) = 5 :=
    minutes_eval hf (by norm_num) (by norm_num) (by norm_num)
  have hrow : row_time ((1013/1000 : ℚ) * 5) = "05:03" := by
    rw [row_time_eq (H := 0) (M := 5) (S := 3) hH hM
      (pyTrunc_eval (by norm_num) (by norm_num) (by norm_num))]
    decide
  have hrow' : row_time_spec_rounded ((1013/1000 : ℚ) * 5) = "05:04" := by
    rw [row_time_spec_eq (H := 0) (M := 5) (S := 4) hH hM
      (pyRound_eval_hi (z := 3) (by norm_num) (by norm_num))]
    decide
  refine ⟨?_, ?_, ?_⟩
  · simp only [time_table_from_pace, table_distances, List.map_cons,
      List.head?_cons, hrow]
  · simp only [time_table_spec_rounded, table_distances, List.map_cons,
      List.head?_cons, hrow']
  · intro h
    have hheads := congrArg List.head? h
    simp only [time_table_from_pace, time_table_spec_rounded,
      table_distances, List.map_cons, List.head?_cons, hrow, hrow'] at hheads
    exact (by decide :
      some ("5 km", "05:03") ≠ some ("5 km", "05:04")) hheads

/-- Claim C2 (amended: the seconds component is truncated, not rounded;
all four concrete values of the claim stand): at pace 5.0 min/km the
finish-time table is 5 km → "25:00", 10 km → "50:00", half marathon →
"01:45:29", full marathon → "03:30:58", each time being
`distance × pace` minutes rendered `HH:MM:SS` when the hour part is
positive and `MM:SS` otherwise. -/
theorem C2_time_table_at_pace_5 :
    time_table_from_pace 5 =
      [("5 km", "25:00"), ("10 km", "50:00"),
       ("Half Marathon (21.1 km)", "01:45:29"),
       ("Full Marathon (42.2 km)", "03:30:58")] := by
  have r1 : row_time ((5:ℚ) * 5) = "25:00" := by
    have hf : ⌊((5:ℚ) * 5) / 60⌋ = 0 := floor_eval (by norm_num) (by norm_num)
    rw [row_time_eq (H := 0) (M := 25) (S := 0)
      (hours_eval (by norm_num) (by norm_num))
      (minutes_eval hf (by norm_num) (by norm_num) (by norm_num))
      (pyTrunc_eval (by norm_num) (by norm_num) (by norm_num))]
    decide
  have r2 : row_time ((5:ℚ) * 10) = "50:00" := by
    have hf : ⌊((5:ℚ) * 10) / 60⌋ = 0 := floor_eval (by norm_num) (by norm_num)
    rw [row_time_eq (H := 0) (M := 50) (S := 0)
      (hours_eval (by norm_num) (by norm_num))
      (minutes_eval hf (by norm_num) (by norm_num) (by norm_num))
      (pyTrunc_eval (by norm_num) (by norm_num) (by norm_num))]
    decide
  have r3 : row_time ((5:ℚ) * 21.097) = "01:45:29" := by
    have hf : ⌊((5:ℚ) * 21.097) / 60⌋ = 1 := floor_eval (by norm_num) (by norm_num)
    rw [row_time_eq (H := 1) (M := 45) (S := 29)
      (hours_eval (by norm_num) (by norm_num))
      (minutes_eval hf (by norm_num) (by norm_num) (by norm_num))
      (pyTrunc_eval (by norm_num) (by norm_num) (by norm_num))]
    decide
  have r4 : row_time ((5:ℚ) * 42.195) = "03:30:58" := by
    have hf : ⌊((5:ℚ) * 42.195) / 60⌋ = 3 := floor_eval (by norm_num) (by norm_num)
    rw [row_time_eq (H := 3) (M := 30) (S := 58)
      (hours_eval (by norm_num) (by norm_num))
      (minutes_eval hf (by norm_num) (by norm_num) (by norm_num))
      (pyTrunc_eval (by norm_num) (by norm_num) (by norm_num))]
    decide
  simp only [time_table_from_pace, table_distances, List.map_cons,
    List.map_nil, r1, r2, r3, r4]

/-! ### Claim C9 -/

/-- Claim C9: pace→speed and speed→pace conversion are mutually inverse:
for every speed `s > 0`, `pace_to_speed (speed_to_pace s) = s`, both
conversions being `x ↦ 60 / x`. -/
theorem C9_pace_speed_roundtrip (s : ℚ) (_hs : 0 < s) :
    pace_to_speed (speed_to_pace s) = s := by
  rw [pace_to_speed, speed_to_pace]
  field_simp

/-- Claim C9 witness at the concrete speed 12 km/h. -/
theorem C9_pace_speed_roundtrip_witness :
    (0:ℚ) < 12 ∧ pace_to_speed (speed_to_pace 12) = 12 :=
  ⟨by norm_num, C9_pace_speed_roundtrip 12 (by norm_num)⟩

/-! ### The data model: dates and the three record stores -/

/-- A calendar date as the code handles it after `pd.to_datetime`
day-first parsing of the stored `DD/MM/YYYY` strings. -/
structure HDate where
  year : Nat
  month : Nat
  day : Nat
deriving DecidableEq, Repr

/-- Chronological (lexicographic year/month/day) order on dates. -/
def HDate.le (a b : HDate) : Prop :=
  a.year < b.year ∨ (a.year = b.year ∧
    (a.month < b.month ∨ (a.month = b.month ∧ a.day ≤ b.day)))

/-- Strict chronological order on dates. -/
def HDate.lt (a b : HDate) : Prop :=
  HDate.le a b ∧ a ≠ b

instance : DecidableRel HDate.le := fun a b => by
  unfold HDate.le
  infer_instance

instance : IsTotal HDate HDate.le :=
  ⟨by intro a b; unfold HDate.le; omega⟩

instance : IsTrans HDate HDate.le :=
  ⟨by intro a b c; unfold HDate.le; omega⟩

/-- A run record (columns of `runs.csv`, website.py line 28). -/
structure RunEntry where
  date : HDate
  distance_km : ℚ
  time_min : ℚ
  pace_min_per_km : ℚ
deriving DecidableEq, Repr

/-- Function `load_runs` (website.py lines 25-28): the rows of `runs.csv` in file
order, or the empty frame when the file does not exist. -/
def load_runs : Option (List RunEntry) → List RunEntry
  | some rows => rows
  | none => []

/-- Function `save_run` (website.py lines 30-33): the file contents after a save —
the loaded rows with the new run concatenated at the end. -/
def save_run (file : Option (List RunEntry)) (run : RunEntry) : List RunEntry :=
  load_runs file ++ [run]

/-- The record built by the Log Run handler (website.py lines 382-389):
`time_min = round(t, 2)` and `pace_min_per_km = round(t / km, 2)` where
`t = to_minutes(h, m, s)` — the two fields are rounded independently. -/
def log_run_record (d : HDate) (h m s km : ℚ) : RunEntry :=
  { date := d, distance_km := km,
    time_min := round2 (to_minutes h m s),
    pace_min_per_km := round2 (to_minutes h m s / km) }

/-! ### Claim C4 -/

/-- Claim C4 counterexample: for a run of 10 minutes over 3 km the
handler stores `time_min = 10` and `pace_min_per_km = 3.33`, but
`time_min / distance_km = 10/3 ≠ 3.33`: the stored pace is *not* exactly
the stored time divided by the stored distance, because the pace is
rounded to two decimals on its own. -/
theorem C4_pace_not_exact_quotient :
    (log_run_record ⟨2024, 1, 1⟩ 0 10 0 3).time_min = 10 ∧
    (log_run_record ⟨2024, 1, 1⟩ 0 10 0 3).pace_min_per_km = 333/100 ∧
    (log_run_record ⟨2024, 1, 1⟩ 0 10 0 3).pace_min_per_km ≠
      (log_run_record ⟨2024, 1, 1⟩ 0 10 0 3).time_min /
        (log_run_record ⟨2024, 1, 1⟩ 0 10 0 3).distance_km := by
  have ht : (log_run_record ⟨2024, 1, 1⟩ 0 10 0 3).time_min = 10 := by
    show round2 (to_minutes 0 10 0) = 10
    rw [round2, to_minutes]
    rw [show ((0:ℚ) * 60 + 10 + 0/60) * 100 = 1000 by norm_num,
      pyRound_eval_lo (z := 1000) (by norm_num) (by norm_num)]
    norm_num
  have hp : (log_run_record ⟨2024, 1, 1⟩ 0 10 0 3).pace_min_per_km = 333/100 := by
    show round2 (to_minutes 0 10 0 / 3) = 333/100
    rw [round2, to_minutes]
    rw [pyRound_eval_lo (z := 333) (by norm_num) (by norm_num)]
    norm_num
  refine ⟨ht, hp, ?_⟩
  rw [ht, hp]
  show (333:ℚ)/100 ≠ 10 / (log_run_record ⟨2024, 1, 1⟩ 0 10 0 3).distance_km
  show (333:ℚ)/100 ≠ 10 / 3
  norm_num

/-- Claim C4 (amended): the stored pace is the *raw* total time divided
by the distance and then rounded to two decimals; it therefore agrees
with `time_min / distance_km` only up to rounding, within
`1/200 + 1/(200·km)`. -/
theorem C4_pace_is_rounded_quotient (d : HDate) (h m s km : ℚ)
    (hkm : 0 < km) :
    (log_run_record d h m s km).pace_min_per_km =
      round2 (to_minutes h m s / km) ∧
    |(log_run_record d h m s km).pace_min_per_km -
        (log_run_record d h m s km).time_min /
          (log_run_record d h m s km).distance_km| ≤
      1/200 + 1/(200 * km) := by
  refine ⟨rfl, ?_⟩
  show |round2 (to_minutes h m s / km) - round2 (to_minutes h m s) / km| ≤ _
  set t : ℚ := to_minutes h m s with htdef
  have e : round2 (t / km) - round2 t / km =
      (round2 (t / km) - t / km) + (t - round2 t) / km := by
    rw [sub_div]
    ring
  have h1 := abs_round2_sub_le (t / km)
  have h2 := abs_round2_sub_le t
  have h3 : |(t - round2 t) / km| ≤ (1/200) / km := by
    rw [abs_div, abs_of_pos hkm, div_le_div_iff_of_pos_right hkm,
      abs_sub_comm]
    exact h2
  have h4 : (1/200 : ℚ) / km = 1 / (200 * km) := by
    rw [div_div]
  calc |round2 (t / km) - round2 t / km|
      = |(round2 (t / km) - t / km) + (t - round2 t) / km| := by rw [e]
    _ ≤ |round2 (t / km) - t / km| + |(t - round2 t) / km| := abs_add _ _
    _ ≤ 1/200 + 1/(200 * km) := by rw [← h4]; exact add_le_add h1 h3

/-- Claim C4 witness: the amended statement applied at the concrete run
h = 0, m = 10, s = 0 over 3 km. -/
theorem C4_pace_is_rounded_quotient_witness :
    (0:ℚ) < 3 ∧
    ((log_run_record ⟨2024, 1, 1⟩ 0 10 0 3).pace_min_per_km =
        round2 (to_minutes 0 10 0 / 3) ∧
      |(log_run_record ⟨2024, 1, 1⟩ 0 10 0 3).pace_min_per_km -
          (log_run_record ⟨2024, 1, 1⟩ 0 10 0 3).time_min /
            (log_run_record ⟨2024, 1, 1⟩ 0 10 0 3).distance_km| ≤
        1/200 + 1/(200 * 3)) :=
  ⟨by norm_num, C4_pace_is_rounded_quotient ⟨2024, 1, 1⟩ 0 10 0 3 (by norm_num)⟩

/-! ### Claim C5: the run-calendar monthly summary -/

/-- The runs of the selected month (website.py line 493): the rows whose
parsed date has the selected year and month. -/
def month_runs (df : List RunEntry) (y m : Nat) : List RunEntry :=
  df.filter fun r => r.date.year == y && r.date.month == m

/-- pandas `Series.mean()`: sum divided by length. -/
def list_mean (l : List ℚ) : ℚ :=
  l.sum / l.length

/-- The monthly summary's average pace (website.py line 498):
`month_df["pace_min_per_km"].mean() if not month_df.empty else 0` —
the unweighted arithmetic mean of the stored per-run paces. -/
def monthly_avg_pace (df : List RunEntry) (y m : Nat) : ℚ :=
  if (month_runs df y m).isEmpty then 0
  else list_mean ((month_runs df y m).map (·.pace_min_per_km))

/-- Claim C5: for a month holding exactly the runs 1 km @ 4 min/km and
9 km @ 6 min/km (a run of another month being ignored by the filter),
the reported average pace is the unweighted mean (4+6)/2 = 5 min/km and
not the distance-weighted value, total time / total distance = 5.8. -/
theorem C5_monthly_avg_pace_unweighted :
    monthly_avg_pace
        [⟨⟨2024, 1, 5⟩, 1, 4, 4⟩, ⟨⟨2024, 1, 12⟩, 9, 54, 6⟩,
         ⟨⟨2024, 2, 3⟩, 5, 30, 6⟩] 2024 1 = 5 ∧
    ((month_runs
        [⟨⟨2024, 1, 5⟩, 1, 4, 4⟩, ⟨⟨2024, 1, 12⟩, 9, 54, 6⟩,
         ⟨⟨2024, 2, 3⟩, 5, 30, 6⟩] 2024 1).map (·.time_min)).sum /
      ((month_runs
        [⟨⟨2024, 1, 5⟩, 1, 4, 4⟩, ⟨⟨2024, 1, 12⟩, 9, 54, 6⟩,
         ⟨⟨2024, 2, 3⟩, 5, 30, 6⟩] 2024 1).map (·.distance_km)).sum =
      29/5 ∧
    (5 : ℚ) ≠ 29/5 := by
  have hm : month_runs
      [⟨⟨2024, 1, 5⟩, 1, 4, 4⟩, ⟨⟨2024, 1, 12⟩, 9, 54, 6⟩,
       ⟨⟨2024, 2, 3⟩, 5, 30, 6⟩] 2024 1 =
      [⟨⟨2024, 1, 5⟩, 1, 4, 4⟩, ⟨⟨2024, 1, 12⟩, 9, 54, 6⟩] := rfl
  refine ⟨?_, ?_, by norm_num⟩
  · rw [monthly_avg_pace, hm]
    norm_num [list_mean, List.sum_cons]
  · rw [hm]
    norm_num [List.sum_cons]

/-! ### The notes store (website.py lines 79-85 and 567-647) -/

/-- A note record (columns of `notes.csv`, website.py line 82). -/
structure Note where
  id : ℤ
  date : HDate
  title : String
  content : String
deriving DecidableEq, Repr

/-- Function `load_notes` (website.py lines 79-82): rows in file order, empty
frame when `notes.csv` does not exist. -/
def load_notes : Option (List Note) → List Note
  | some rows => rows
  | none => []

/-- The id the Add-New-Note handler assigns (website.py line 586):
`int(notes_df["id"].max() + 1) if not notes_df.empty else 1`. -/
def next_note_id (notes : List Note) : ℤ :=
  if notes.isEmpty then 1 else ((notes.map (·.id)).max?.getD 0) + 1

/-- The Add-New-Note handler (website.py lines 581-597): append the new
record, with the assigned id itself and today's date, at the end. -/
def add_note (notes : List Note) (today : HDate) (title content : String) :
    List Note :=
  notes ++ [⟨next_note_id notes, today, title, content⟩]

/-- The Delete handler (website.py lines 643-646): `notes_df.drop(idx)`
— remove the row at positional index `idx`. -/
def delete_note (notes : List Note) (idx : Nat) : List Note :=
  notes.eraseIdx idx

/-- Claim C6: adding a note to an empty store assigns id 1; after
deleting that sole note the store is empty again, so the next added note
is assigned id 1 once more (id = max of the present ids + 1, or 1 when
the store is empty, so ids are reused when the maximum drops). -/
theorem C6_note_id_reuse (d d' : HDate) (t c t' c' : String) :
    (add_note [] d t c).map (·.id) = [1] ∧
    delete_note (add_note [] d t c) 0 = [] ∧
    (add_note (delete_note (add_note [] d t c) 0) d' t' c').map (·.id) =
      [1] :=
  ⟨rfl, rfl, rfl⟩

/-! ### body_calculation.py: food store and body metrics -/

/-- A food/exercise log record (columns of `food_log.csv`,
body_calculation.py line 41). -/
structure FoodEntry where
  date : HDate
  meal : String
  food : String
  calories_in : ℤ
  exercise : String
  calories_out : ℤ
deriving DecidableEq, Repr

/-- Function `load_food_data` (body_calculation.py lines 38-41): rows in file
order, empty frame when `food_log.csv` does not exist. -/
def load_food_data : Option (List FoodEntry) → List FoodEntry
  | some rows => rows
  | none => []

/-- Function `save_food_data` (body_calculation.py lines 43-46): the file
contents after a save — loaded rows with the new entries concatenated in
argument order. -/
def save_food_data (file : Option (List FoodEntry))
    (entries : List FoodEntry) : List FoodEntry :=
  load_food_data file ++ entries

/-- Function `calculate_bmi` (body_calculation.py lines 51-52). -/
def calculate_bmi (weight height_cm : ℚ) : ℚ :=
  weight / ((height_cm / 100) ^ 2)

/-- Function `bmi_category` (body_calculation.py lines 54-62). -/
def bmi_category (bmi : ℚ) : String :=
  if bmi < 18.5 then "Underweight"
  else if bmi < 25 then "Normal weight"
  else if bmi < 30 then "Overweight"
  else "Obese"

/-! ### Claim C3 -/

/-- Claim C3: for every positive weight and height the BMI category is
one of the four fixed categories (the normal one being spelled
"Normal weight" in the code), and the bucket boundaries are
inclusive-lower/exclusive-upper: a BMI of exactly 24.9 is Normal while
25.0 is Overweight. -/
theorem C3_bmi_category_boundaries (w h : ℚ) (_hw : 0 < w) (_hh : 0 < h) :
    (bmi_category (calculate_bmi w h) = "Underweight" ∨
     bmi_category (calculate_bmi w h) = "Normal weight" ∨
     bmi_category (calculate_bmi w h) = "Overweight" ∨
     bmi_category (calculate_bmi w h) = "Obese") ∧
    bmi_category 24.9 = "Normal weight" ∧
    bmi_category 25 = "Overweight" := by
  refine ⟨?_, ?_, ?_⟩
  · rw [bmi_category]
    split_ifs <;> simp
  · rw [bmi_category]
    norm_num
  · rw [bmi_category]
    norm_num

/-- Claim C3 witness at weight 70 kg, height 170 cm. -/
theorem C3_bmi_category_boundaries_witness :
    (0:ℚ) < 70 ∧ (0:ℚ) < 170 ∧
    ((bmi_category (calculate_bmi 70 170) = "Underweight" ∨
      bmi_category (calculate_bmi 70 170) = "Normal weight" ∨
      bmi_category (calculate_bmi 70 170) = "Overweight" ∨
      bmi_category (calculate_bmi 70 170) = "Obese") ∧
     bmi_category 24.9 = "Normal weight" ∧
     bmi_category 25 = "Overweight") :=
  ⟨by norm_num, by norm_num,
   C3_bmi_category_boundaries 70 170 (by norm_num) (by norm_num)⟩

/-! ### Claim C7: the daily calories summary -/

/-- A row of the daily summary table (body_calculation.py
lines 193-197). -/
structure DayRow where
  date : HDate
  calories_in : ℤ
  calories_out : ℤ
  net_calories : ℤ
deriving DecidableEq, Repr

/-- The summed `calories_in` of one date's entries. -/
def day_calories_in (log : List FoodEntry) (d : HDate) : ℤ :=
  ((log.filter fun e => e.date == d).map (·.calories_in)).sum

/-- The summed `calories_out` of one date's entries. -/
def day_calories_out (log : List FoodEntry) (d : HDate) : ℤ :=
  ((log.filter fun e => e.date == d).map (·.calories_out)).sum

/-- The distinct dates of the log in ascending order — the group keys of
pandas `groupby("date")`, which sorts the keys. -/
def summary_dates (log : List FoodEntry) : List HDate :=
  List.insertionSort HDate.le (log.map (·.date)).dedup

/-- Function `daily_summary` (body_calculation.py lines 190-197): group by date,
sum `calories_in` and `calories_out` independently, derive
`net_calories` as their difference; one row per distinct date, in
ascending date order. -/
def daily_summary (log : List FoodEntry) : List DayRow :=
  (summary_dates log).map fun d =>
    ⟨d, day_calories_in log d, day_calories_out log d,
     day_calories_in log d - day_calories_out log d⟩

theorem mem_summary_dates {log : List FoodEntry} {d : HDate} :
    d ∈ summary_dates log ↔ d ∈ log.map (·.date) := by
  rw [summary_dates, List.mem_insertionSort]
  exact List.mem_dedup

theorem daily_summary_map_date (log : List FoodEntry) :
    (daily_summary log).map (·.date) = summary_dates log := by
  rw [daily_summary, List.map_map]
  exact List.map_id _

theorem summary_dates_sorted (log : List FoodEntry) :
    (summary_dates log).Sorted HDate.lt := by
  have hs : (summary_dates log).Sorted HDate.le :=
    List.sorted_insertionSort HDate.le _
  have hn : (summary_dates log).Nodup :=
    (List.perm_insertionSort HDate.le _).symm.nodup
      (log.map (·.date)).nodup_dedup
  exact (List.Pairwise.and hs hn).imp fun hab => hab

/-- Claim C7: `daily_summary` has one row per distinct date of the log
(absent dates are absent), rows are in ascending date order, each row's
calories are the independent per-date sums with net = in − out, and on
the log [(2024-01-01, in 500, out 0), (2024-01-01, in 300, out 100)] the
single row for 2024-01-01 reads in 800, out 100, net 700. -/
theorem C7_daily_summary_grouping :
    daily_summary
        [⟨⟨2024, 1, 1⟩, "Breakfast", "", 500, "", 0⟩,
         ⟨⟨2024, 1, 1⟩, "Lunch", "", 300, "", 100⟩] =
      [⟨⟨2024, 1, 1⟩, 800, 100, 700⟩] ∧
    (∀ log : List FoodEntry, ∀ d : HDate,
      d ∈ (daily_summary log).map (·.date) ↔ d ∈ log.map (·.date)) ∧
    (∀ log : List FoodEntry,
      ((daily_summary log).map (·.date)).Sorted HDate.lt) ∧
    (∀ log : List FoodEntry, ∀ row : DayRow, row ∈ daily_summary log →
      row.calories_in = day_calories_in log row.date ∧
      row.calories_out = day_calories_out log row.date ∧
      row.net_calories = row.calories_in - row.calories_out) := by
  refine ⟨by decide, ?_, ?_, ?_⟩
  · intro log d
    rw [daily_summary_map_date]
    exact mem_summary_dates
  · intro log
    rw [daily_summary_map_date]
    exact summary_dates_sorted log
  · intro log row hrow
    obtain ⟨d, _, rfl⟩ := List.mem_map.mp hrow
    exact ⟨rfl, rfl, rfl⟩

/-- Claim C7 witness: the per-row sum property applied to the concrete
row of the concrete two-entry log. -/
theorem C7_daily_summary_grouping_witness :
    (⟨⟨2024, 1, 1⟩, 800, 100, 700⟩ : DayRow) ∈ daily_summary
        [⟨⟨2024, 1, 1⟩, "Breakfast", "", 500, "", 0⟩,
         ⟨⟨2024, 1, 1⟩, "Lunch", "", 300, "", 100⟩] ∧
    ((⟨⟨2024, 1, 1⟩, 800, 100, 700⟩ : DayRow).calories_in =
        day_calories_in
          [⟨⟨2024, 1, 1⟩, "Breakfast", "", 500, "", 0⟩,
           ⟨⟨2024, 1, 1⟩, "Lunch", "", 300, "", 100⟩] ⟨2024, 1, 1⟩ ∧
      (⟨⟨2024, 1, 1⟩, 800, 100, 700⟩ : DayRow).calories_out =
        day_calories_out
          [⟨⟨2024, 1, 1⟩, "Breakfast", "", 500, "", 0⟩,
           ⟨⟨2024, 1, 1⟩, "Lunch", "", 300, "", 100⟩] ⟨2024, 1, 1⟩ ∧
      (⟨⟨2024, 1, 1⟩, 800, 100, 700⟩ : DayRow).net_calories =
        (⟨⟨2024, 1, 1⟩, 800, 100, 700⟩ : DayRow).calories_in -
          (⟨⟨2024, 1, 1⟩, 800, 100, 700⟩ : DayRow).calories_out) :=
  ⟨by decide,
   C7_daily_summary_grouping.2.2.2
     [⟨⟨2024, 1, 1⟩, "Breakfast", "", 500, "", 0⟩,
      ⟨⟨2024, 1, 1⟩, "Lunch", "", 300, "", 100⟩]
     ⟨⟨2024, 1, 1⟩, 800, 100, 700⟩ (by decide)⟩

/-! ### Claim C8 -/

/-- Claim C8: each of the three loaders returns the stored records in
file order and the empty sequence — never an error — when the backing
file does not exist (`none`). -/
theorem C8_load_missing_file_is_empty :
    load_runs none = [] ∧
    (∀ rows : List RunEntry, load_runs (some rows) = rows) ∧
    load_notes none = [] ∧
    (∀ rows : List Note, load_notes (some rows) = rows) ∧
    load_food_data none = [] ∧
    (∀ rows : List FoodEntry, load_food_data (some rows) = rows) :=
  ⟨rfl, fun _ => rfl, rfl, fun _ => rfl, rfl, fun _ => rfl⟩

/-! ### Claim C10: the Save Today's Entry handler -/

/-- The example food database (body_calculation.py lines 21-33). -/
def food_db : List (String × ℤ) :=
  [("Egg", 78), ("Toast", 75), ("Oatmeal", 150),
   ("Chicken Breast (100g)", 165), ("Rice (1 cup)", 206), ("Salad", 50),
   ("Apple", 95), ("Banana", 105), ("Pasta (1 cup)", 200),
   ("Milk (1 cup)", 122), ("Yogurt (100g)", 59)]

/-- Lookup `food_db[f]` for a selected food name. -/
def food_db_cal (name : String) : ℤ :=
  (food_db.lookup name).getD 0

/-- One meal's record (body_calculation.py lines 154-166, with the
`exercise` field overwritten by lines 173-174 before saving):
`food = ", ".join(foods_selected) if foods_selected else ""` and
`calories_in = sum(food_db[f] for f in foods_selected) if foods_selected
else 0`; `calories_out` is always 0 for a meal row. -/
def meal_entry (d : HDate) (meal : String) (foods : List String)
    (ex : String) : FoodEntry :=
  { date := d, meal := meal,
    food := String.intercalate ", " foods,
    calories_in := (foods.map food_db_cal).sum,
    exercise := ex, calories_out := 0 }

/-- The records the Save Today's Entry handler appends
(body_calculation.py lines 151-181): always the three meal rows
Breakfast, Lunch, Dinner, plus one Exercise row exactly when the
exercise text is non-empty and the burned calories are positive
(`if exercise_item and calories_out > 0`). -/
def save_entries (d : HDate) (bf lf dn : List String) (ex : String)
    (co : ℤ) : List FoodEntry :=
  [meal_entry d "Breakfast" bf ex, meal_entry d "Lunch" lf ex,
   meal_entry d "Dinner" dn ex] ++
    (if ex ≠ "" ∧ 0 < co then
      [{ date := d, meal := "Exercise", food := "", calories_in := 0,
         exercise := ex, calories_out := co }]
     else [])

/-- Claim C10: the handler always appends exactly the three meal records
Breakfast, Lunch, Dinner for the chosen date — an unselected meal giving
the empty food string and 0 calories — plus a fourth Exercise record iff
the exercise text is non-empty and the calories burned are positive; and
the saved date consequently appears among `daily_summary`'s dates. -/
theorem C10_save_handler_shape (d : HDate) (bf lf dn : List String)
    (ex : String) (co : ℤ) (file : Option (List FoodEntry)) :
    ((save_entries d bf lf dn ex co).map (·.meal)).take 3 =
      ["Breakfast", "Lunch", "Dinner"] ∧
    ((save_entries d bf lf dn ex co).map (·.date)).take 3 = [d, d, d] ∧
    ((save_entries d bf lf dn ex co).length = 3 ∨
      (save_entries d bf lf dn ex co).length = 4) ∧
    ((save_entries d bf lf dn ex co).length = 4 ↔ ex ≠ "" ∧ 0 < co) ∧
    ((save_entries d bf lf dn ex co).drop 3 =
      if ex ≠ "" ∧ 0 < co then
        [{ date := d, meal := "Exercise", food := "", calories_in := 0,
           exercise := ex, calories_out := co }]
      else []) ∧
    (∀ meal : String, (meal_entry d meal [] ex).food = "" ∧
      (meal_entry d meal [] ex).calories_in = 0) ∧
    d ∈ (daily_summary
        (save_food_data file (save_entries d bf lf dn ex co))).map
      (·.date) := by
  have hmem : d ∈ (save_food_data file
      (save_entries d bf lf dn ex co)).map (·.date) := by
    rw [save_food_data, List.map_append]
    refine List.mem_append_right _ ?_
    rw [save_entries, List.map_append]
    exact List.mem_append_left _ (List.mem_cons_self _ _)
  by_cases hco : ex ≠ "" ∧ 0 < co
  · refine ⟨rfl, rfl, Or.inr ?_, ?_, ?_, fun meal => ⟨rfl, rfl⟩, ?_⟩
    · rw [save_entries, if_pos hco]
      rfl
    · rw [save_entries, if_pos hco]
      simpa using hco
    · rw [save_entries, if_pos hco]
      rfl
    · rw [daily_summary_map_date, mem_summary_dates]
      exact hmem
  · refine ⟨rfl, rfl, Or.inl ?_, ?_, ?_, fun meal => ⟨rfl, rfl⟩, ?_⟩
    · rw [save_entries, if_neg hco]
      rfl
    · rw [save_entries, if_neg hco]
      simpa using hco
    · rw [save_entries, if_neg hco]
      rfl
    · rw [daily_summary_map_date, mem_summary_dates]
      exact hmem

end Running
